import Mathlib

/-!
Verification of the Fleet Scheduling & Energy Admission Control core of the
Black-Core backend.  The definitions below are a shallow embedding of the
JavaScript source:

* the queue engine (`processQueue` in the queue-engine module): energy gate,
  idle-printer scan, candidate ordering, and the per-pair two-step commit;
* the manual assignment route (`PUT /api/queue/:id/assign` in
  `routes/orders.js`): energy gate with PowerEvent logging, printer lookup,
  busy check, and the same two-step commit;
* the telemetry poller (`runPoll` / `calculateEnergyDraw`): telemetry append
  and the thermal-runaway event check.

Database rows are modelled as Lean structures; the Prisma store is a `DB`
record of row lists.  `findFirst` with `orderBy: recordedAt desc` is modelled
by `latestBy` (row of maximal timestamp); `orderBy [priority asc, createdAt
asc]` is modelled by a stable insertion sort under the lexicographic order
`queueLe`.  Real-valued quantities (kW, °C) are modelled as rationals.
Timestamps are naturals.  Statuses are the literal strings the code stores.
-/

namespace BlackCore

/-- EnergySettings singleton row (`prisma.energySettings`, id 1). -/
structure EnergySettings where
  maxLoadKw : ℚ
  peakProtection : Bool
  warmupStaggering : Bool
  staggerDelayMin : ℕ
  baseLoadKw : ℚ
  deriving DecidableEq

/-- EnergyReading row: an aggregate-load sample. -/
structure EnergyReading where
  currentKw : ℚ
  recordedAt : ℕ
  deriving DecidableEq

/-- Printer row (device identity, thermal limit, nominal rating). -/
structure Printer where
  id : ℕ
  isActive : Bool
  maxTempExtruder : ℚ
  energyRating : ℚ
  deriving DecidableEq

/-- PrinterTelemetry row: one timestamped device reading. -/
structure PrinterTelemetry where
  printerId : ℕ
  extruderTemp : ℚ
  bedTemp : ℚ
  status : String
  energyDraw : ℚ
  recordedAt : ℕ
  deriving DecidableEq

/-- PrinterEvent row: an anomaly event (e.g. THERMAL_RUNAWAY). -/
structure PrinterEvent where
  printerId : ℕ
  level : String
  code : String
  deriving DecidableEq

/-- Job (WorkUnit) row — the fields touched by assignment. -/
structure Job where
  id : ℕ
  status : String
  printerId : Option ℕ
  startedAt : Option ℕ
  deriving DecidableEq

/-- QueueItem (QueueEntry) row. -/
structure QueueItem where
  id : ℕ
  jobId : ℕ
  printerId : Option ℕ
  priority : ℕ
  status : String
  createdAt : ℕ
  deriving DecidableEq

/-- PowerEvent row: an admission-gate rejection record. -/
structure PowerEvent where
  type : String
  currentKw : ℚ
  limitKw : ℚ
  action : String
  deriving DecidableEq

/-- The relational store: one list per table. -/
structure DB where
  settings : Option EnergySettings
  energyReadings : List EnergyReading
  printers : List Printer
  telemetry : List PrinterTelemetry
  queueItems : List QueueItem
  jobs : List Job
  powerEvents : List PowerEvent
  printerEvents : List PrinterEvent
  deriving DecidableEq

/-- `findFirst orderBy key desc`: the element with maximal key
(first such element on ties). -/
def latestBy {α : Type} (key : α → ℕ) (l : List α) : Option α :=
  l.foldl
    (fun acc x =>
      match acc with
      | none => some x
      | some y => if key y < key x then some x else some y)
    none

/-- `prisma.energyReading.findFirst({orderBy: {recordedAt: 'desc'}})`. -/
def latestEnergy (db : DB) : Option EnergyReading :=
  latestBy (fun e => e.recordedAt) db.energyReadings

/-- `prisma.printerTelemetry.findFirst({where: {printerId}, orderBy:
{recordedAt: 'desc'}})`. -/
def latestTelemetry (db : DB) (pid : ℕ) : Option PrinterTelemetry :=
  latestBy (fun t => t.recordedAt) (db.telemetry.filter (fun t => t.printerId == pid))

/-- The energy gate shared by `processQueue` and the assign route:
`settings?.peakProtection && latestEnergy && currentKw >= maxLoadKw * 0.9`.
Returns `some (currentKw, maxLoadKw)` when the gate blocks, `none` when it
allows (including when the settings row or the latest reading is absent). -/
def gateCheck (s? : Option EnergySettings) (e? : Option EnergyReading) :
    Option (ℚ × ℚ) :=
  match s?, e? with
  | some s, some e =>
      if s.peakProtection && decide (s.maxLoadKw * (9 / 10) ≤ e.currentKw) then
        some (e.currentKw, s.maxLoadKw)
      else none
  | _, _ => none

/-- The gate blocks. -/
def admissionBlocked (s? : Option EnergySettings) (e? : Option EnergyReading) : Bool :=
  (gateCheck s? e?).isSome

/-- `processQueue`'s idle test: a printer is pushed onto `idlePrinters` when
`!latestTelemetry || latestTelemetry.status === 'idle' ||
latestTelemetry.status === 'offline'`. -/
def eligibleForAssign (db : DB) (p : Printer) : Bool :=
  match latestTelemetry db p.id with
  | none => true
  | some t => t.status == "idle" || t.status == "offline"

/-- The `idlePrinters` list built by `processQueue`: active printers passing
`eligibleForAssign`, in table order. -/
def idlePrinters (db : DB) : List Printer :=
  (db.printers.filter (fun p => p.isActive)).filter (eligibleForAssign db)

/-- `where: { status: 'queued', printerId: null }`. -/
def queuedUnassigned (db : DB) : List QueueItem :=
  db.queueItems.filter (fun q => q.status == "queued" && q.printerId.isNone)

/-- The order of `orderBy: [{priority: 'asc'}, {createdAt: 'asc'}]`:
lexicographic on (priority, createdAt). -/
def queueLe (a b : QueueItem) : Prop :=
  a.priority < b.priority ∨ (a.priority = b.priority ∧ a.createdAt ≤ b.createdAt)

instance : DecidableRel queueLe := fun a b => by
  unfold queueLe; exact inferInstance

/-- The candidate queue in served order (stable sort by `queueLe`). -/
def sortedCandidates (db : DB) : List QueueItem :=
  List.insertionSort queueLe (queuedUnassigned db)

/-- `take: idlePrinters.length` on the candidate query. -/
def takenCandidates (db : DB) : List QueueItem :=
  (sortedCandidates db).take (idlePrinters db).length

/-- The (queue item, printer) pairs the tick's loop commits:
item `i` with printer `i`, for `i < min(queueItems.length, idlePrinters.length)`. -/
def committedPairs (db : DB) : List (QueueItem × Printer) :=
  (takenCandidates db).zip (idlePrinters db)

/-- First write of a pair commit:
`queueItem.update({where: {id: item.id}, data: {printerId, status: 'assigned'}})`. -/
def commitQueueWrite (db : DB) (item : QueueItem) (prId : ℕ) : DB :=
  { db with
    queueItems := db.queueItems.map (fun q =>
      if q.id == item.id then { q with printerId := some prId, status := "assigned" }
      else q) }

/-- Second write of a pair commit:
`job.update({where: {id: item.jobId}, data: {printerId, status: 'printing',
startedAt: new Date()}})`. -/
def commitJobWrite (now : ℕ) (db : DB) (item : QueueItem) (prId : ℕ) : DB :=
  { db with
    jobs := db.jobs.map (fun j =>
      if j.id == item.jobId then
        { j with printerId := some prId, status := "printing", startedAt := some now }
      else j) }

/-- One completed pair commit: the two writes issued in sequence.  In the
source they are two separate awaited `update` calls with no enclosing
`$transaction`. -/
def assignPair (now : ℕ) (db : DB) (item : QueueItem) (prId : ℕ) : DB :=
  commitJobWrite now (commitQueueWrite db item prId) item prId

/-- The states a single pair commit can leave the store in, given that the
two row updates are separate operations: not started, interrupted after the
queue write, or completed.  (The warmup-stagger branch is a synchronous
`setTimeout` sleep between iterations; it performs no store mutation and is
not modelled.) -/
inductive PairCommitState (now : ℕ) (db : DB) (item : QueueItem) (prId : ℕ) : DB → Prop where
  | start : PairCommitState now db item prId db
  | afterQueueWrite : PairCommitState now db item prId (commitQueueWrite db item prId)
  | afterBothWrites : PairCommitState now db item prId (assignPair now db item prId)

/-- One tick of the queue engine (`processQueue`), as a store transformer.
Early returns mirror the source: energy gate, empty idle set, empty
candidate list; otherwise the matching loop commits each pair. -/
def processQueue (now : ℕ) (db : DB) : DB :=
  if admissionBlocked db.settings (latestEnergy db) then db
  else if (idlePrinters db).length = 0 then db
  else if (takenCandidates db).length = 0 then db
  else (committedPairs db).foldl (fun d pr => assignPair now d pr.1 pr.2.id) db

/-- Busy test of the assign route: `printerTelemetry?.status === 'printing'`
(absent telemetry compares unequal, so it passes). -/
def telemetryIsPrinting (db : DB) (pid : ℕ) : Bool :=
  match latestTelemetry db pid with
  | some t => t.status == "printing"
  | none => false

/-- Outcome of the assign route.  `entryNotFound` / `jobNotFound` model a
thrown Prisma `update` on a missing row (caught as a 500 response). -/
inductive AssignResult where
  | blockedEnergy (currentKw maxKw : ℚ)
  | printerNotFound
  | printerBusy
  | entryNotFound
  | jobNotFound
  | ok
  deriving DecidableEq

/-- `PUT /api/queue/:id/assign`: energy gate (logging a PowerEvent on block),
printer lookup, busy check, then the same two-step commit as the scheduler.
The audit-log insert and WebSocket emit touch no modelled table. -/
def manualAssign (now : ℕ) (db : DB) (queueItemId printerId : ℕ) :
    DB × AssignResult :=
  match gateCheck db.settings (latestEnergy db) with
  | some (cur, limit) =>
      ({ db with
          powerEvents :=
            { type := "OVERLOAD_PREVENTED", currentKw := cur, limitKw := limit,
              action := "Job assignment blocked" } :: db.powerEvents },
        .blockedEnergy cur limit)
  | none =>
    match db.printers.find? (fun p => p.id == printerId) with
    | none => (db, .printerNotFound)
    | some _ =>
      if telemetryIsPrinting db printerId then (db, .printerBusy)
      else
        match db.queueItems.find? (fun q => q.id == queueItemId) with
        | none => (db, .entryNotFound)
        | some item =>
          match db.jobs.find? (fun j => j.id == item.jobId) with
          | none => (commitQueueWrite db item printerId, .jobNotFound)
          | some _ => (assignPair now db item printerId, .ok)

/-- `toFixed(3)` on the non-standby branch of the draw estimate: round to
three decimals. -/
def round3 (q : ℚ) : ℚ :=
  ((Int.floor (q * 1000 + 1 / 2) : ℤ) : ℚ) / 1000

/-- `calculateEnergyDraw(extruderTemp, bedTemp, baseRating)` from the
telemetry service: standby floor 0.05 kW when both temperatures are near
ambient, otherwise `baseRating * 0.6` plus threshold loads. -/
def calculateEnergyDraw (extruderTemp bedTemp baseRating : ℚ) : ℚ :=
  if extruderTemp < 50 ∧ bedTemp < 30 then 1 / 20
  else
    round3 (baseRating * (3 / 5)
      + (if 150 < extruderTemp then 1 / 4 else 1 / 20)
      + (if 50 < bedTemp then 3 / 20 else 1 / 50))

/-- The decoded fields of one poll response (after `mapKlipperStatus`). -/
structure RawPoll where
  extruderTemp : ℚ
  bedTemp : ℚ
  status : String
  deriving DecidableEq

/-- The telemetry row `runPoll` inserts for one poll. -/
def mkTelemetry (now : ℕ) (p : Printer) (r : RawPoll) : PrinterTelemetry :=
  { printerId := p.id, extruderTemp := r.extruderTemp, bedTemp := r.bedTemp,
    status := r.status,
    energyDraw := calculateEnergyDraw r.extruderTemp r.bedTemp p.energyRating,
    recordedAt := now }

/-- One poll of one printer inside `runPoll`: insert the telemetry row, then
`if (data.extruderTemp > printer.maxTempExtruder)` insert a CRITICAL
THERMAL_RUNAWAY PrinterEvent.  The retention pruning further down in
`runPoll` deletes only old telemetry rows (never events) and is not needed
by the properties below. -/
def pollTick (now : ℕ) (db : DB) (p : Printer) (r : RawPoll) : DB :=
  let db1 := { db with telemetry := mkTelemetry now p r :: db.telemetry }
  if p.maxTempExtruder < r.extruderTemp then
    { db1 with
      printerEvents :=
        { printerId := p.id, level := "CRITICAL", code := "THERMAL_RUNAWAY" } ::
          db1.printerEvents }
  else db1

/-- A run of consecutive polls of one printer, one tick apart. -/
def pollRun (p : Printer) : ℕ → DB → List RawPoll → DB
  | _, db, [] => db
  | now, db, r :: rest => pollRun p (now + 1) (pollTick now db p r) rest

/-- Number of THERMAL_RUNAWAY events on record for a printer. -/
def thermalEventCount (pid : ℕ) (db : DB) : ℕ :=
  (db.printerEvents.filter
    (fun ev => ev.printerId == pid && ev.code == "THERMAL_RUNAWAY")).length

/-- The row substitution performed by a list of pair commits: an item whose
id occurs in the list becomes assigned to the matching printer; others are
untouched. -/
def applyAssign (ps : List (QueueItem × Printer)) (q : QueueItem) : QueueItem :=
  match ps.find? (fun pr => pr.1.id == q.id) with
  | some pr => { q with printerId := some pr.2.id, status := "assigned" }
  | none => q

/-! ### Concrete fixtures

Small stores used to evaluate the model at explicit inputs (the spec's own
scenario `maxLoadKw = 6`, `currentKw = 5.5` among them). -/

/-- Default-style settings with peak protection on and `maxLoadKw = 6`. -/
def settingsPeak : EnergySettings :=
  { maxLoadKw := 6, peakProtection := true, warmupStaggering := false,
    staggerDelayMin := 5, baseLoadKw := 6 / 5 }

/-- An empty store with the peak settings and one 5.5 kW reading. -/
def dbPeak : DB :=
  { settings := some settingsPeak, energyReadings := [⟨11 / 2, 0⟩],
    printers := [], telemetry := [], queueItems := [], jobs := [],
    powerEvents := [], printerEvents := [] }

/-- An active printer with no constraints violated, id 1, limit 260 °C. -/
def printer1 : Printer := ⟨1, true, 260, 1 / 2⟩

def printer2 : Printer := ⟨2, true, 260, 1 / 2⟩

def printer7 : Printer := ⟨7, true, 260, 1 / 2⟩

/-- Queued, unassigned entry: id 1, job 1, priority 5, inserted at t = 1. -/
def itemA : QueueItem := ⟨1, 1, none, 5, "queued", 1⟩

/-- Queued, unassigned entry: id 2, job 2, priority 1, inserted at t = 2. -/
def itemB : QueueItem := ⟨2, 2, none, 1, "queued", 2⟩

def jobA : Job := ⟨1, "queued", none, none⟩

def jobB : Job := ⟨2, "queued", none, none⟩

/-- One eligible printer, two queued entries (priorities 5 then 1). -/
def dbTwoItems : DB :=
  { settings := none, energyReadings := [], printers := [printer1],
    telemetry := [], queueItems := [itemA, itemB], jobs := [jobA, jobB],
    powerEvents := [], printerEvents := [] }

/-- Peak protection on but the energy-reading table empty. -/
def dbNoReading : DB :=
  { settings := some settingsPeak, energyReadings := [], printers := [printer1],
    telemetry := [], queueItems := [itemA], jobs := [jobA],
    powerEvents := [], printerEvents := [] }

/-- Printer 1's latest (and only) telemetry row reports `offline`. -/
def dbOffline : DB :=
  { settings := none, energyReadings := [], printers := [printer1],
    telemetry := [⟨1, 0, 0, "offline", 0, 0⟩], queueItems := [itemA],
    jobs := [jobA], powerEvents := [], printerEvents := [] }

/-- Entry 1 is already assigned to printer 7; printer 2 is also present. -/
def dbAssigned : DB :=
  { settings := none, energyReadings := [], printers := [printer7, printer2],
    telemetry := [], queueItems := [⟨1, 1, some 7, 5, "assigned", 0⟩],
    jobs := [⟨1, "printing", some 7, some 0⟩],
    powerEvents := [], printerEvents := [] }

/-- Printer 1's latest telemetry reports `paused` (not `printing`). -/
def dbPaused : DB :=
  { settings := none, energyReadings := [], printers := [printer1],
    telemetry := [⟨1, 0, 0, "paused", 0, 0⟩], queueItems := [itemA],
    jobs := [jobA], powerEvents := [], printerEvents := [] }

/-- One queued entry and its job, nothing else. -/
def dbPairs : DB :=
  { settings := none, energyReadings := [], printers := [],
    telemetry := [], queueItems := [itemA], jobs := [jobA],
    powerEvents := [], printerEvents := [] }

/-- A completely empty store. -/
def dbEmpty : DB :=
  { settings := none, energyReadings := [], printers := [],
    telemetry := [], queueItems := [], jobs := [],
    powerEvents := [], printerEvents := [] }

/-- A poll decoding to 300 °C extruder temperature. -/
def rawOver : RawPoll := ⟨300, 60, "printing"⟩

/-! ### Helper lemmas -/

/-- When the gate allows, the tick is exactly the matching fold (the two
empty-list early returns coincide with a fold over no pairs). -/
theorem processQueue_allowed (now : ℕ) (db : DB)
    (h : admissionBlocked db.settings (latestEnergy db) = false) :
    processQueue now db =
      (committedPairs db).foldl (fun d pr => assignPair now d pr.1 pr.2.id) db := by
  unfold processQueue
  by_cases h1 : (idlePrinters db).length = 0
  · have hi : idlePrinters db = [] := List.length_eq_zero.mp h1
    have hc : committedPairs db = [] := by simp [committedPairs, hi]
    simp [h, h1, hc]
  · by_cases h2 : (takenCandidates db).length = 0
    · have ht : takenCandidates db = [] := List.length_eq_zero.mp h2
      have hc : committedPairs db = [] := by simp [committedPairs, ht]
      simp [h, h1, h2, hc]
    · simp [h, h1, h2]

/-- On every non-blocked outcome, the assign route leaves the PowerEvent log
untouched. -/
theorem manualAssign_powerEvents_of_not_blocked (now qid pid : ℕ) (db : DB)
    (h : gateCheck db.settings (latestEnergy db) = none) :
    (manualAssign now db qid pid).1.powerEvents = db.powerEvents := by
  unfold manualAssign
  rw [h]
  repeat' split
  all_goals first | rfl | simp_all

/-! ### C1 — admission gate: blocking condition and PowerEvent logging -/

/-- C1 (counterexample): the spec's own scenario (`maxLoadKw = 6`,
`currentKw = 5.5`).  The periodic scheduler's gate blocks, yet no PowerEvent
is recorded — `processQueue` returns silently, so the "whenever it blocks, a
PowerEvent is recorded" part of the claim fails on the scheduler path. -/
theorem scheduler_blocks_without_powerEvent :
    admissionBlocked dbPeak.settings (latestEnergy dbPeak) = true
    ∧ processQueue 0 dbPeak = dbPeak
    ∧ dbPeak.powerEvents = [] := by
  with_unfolding_all decide

/-- C1 (amended): with a settings row and a latest sample present, the gate
blocks iff `peakProtection` is on and `currentKw ≥ maxLoadKw * 0.9`; when it
blocks, the manual-assignment path records a PowerEvent carrying the blocking
`currentKw` and the limit `maxLoadKw` and fails with that reading, while the
periodic scheduler skips the tick silently, recording no PowerEvent. -/
theorem admission_gate_blocking_and_logging (now qid pid : ℕ) (db : DB)
    (s : EnergySettings) (e : EnergyReading)
    (hs : db.settings = some s) (he : latestEnergy db = some e) :
    (admissionBlocked db.settings (latestEnergy db)
        = (s.peakProtection && decide (s.maxLoadKw * (9 / 10) ≤ e.currentKw)))
    ∧ (admissionBlocked db.settings (latestEnergy db) = true →
        processQueue now db = db)
    ∧ (admissionBlocked db.settings (latestEnergy db) = true →
        (manualAssign now db qid pid).1.powerEvents =
            { type := "OVERLOAD_PREVENTED", currentKw := e.currentKw,
              limitKw := s.maxLoadKw, action := "Job assignment blocked" }
              :: db.powerEvents
          ∧ (manualAssign now db qid pid).2 = .blockedEnergy e.currentKw s.maxLoadKw) := by
  have hg : gateCheck db.settings (latestEnergy db)
      = if s.peakProtection && decide (s.maxLoadKw * (9 / 10) ≤ e.currentKw)
        then some (e.currentKw, s.maxLoadKw) else none := by
    rw [hs, he]; rfl
  refine ⟨?_, ?_, ?_⟩
  · rcases hcond : s.peakProtection && decide (s.maxLoadKw * (9 / 10) ≤ e.currentKw) with _ | _ <;>
      simp [admissionBlocked, hg, hcond]
  · intro hb
    simp [processQueue, hb]
  · intro hb
    have hsome : gateCheck db.settings (latestEnergy db) = some (e.currentKw, s.maxLoadKw) := by
      rcases hcond : s.peakProtection && decide (s.maxLoadKw * (9 / 10) ≤ e.currentKw) with _ | _
      · rw [admissionBlocked, hg, hcond] at hb
        simp at hb
      · rw [hg, hcond]
        simp
    constructor <;> simp [manualAssign, hsome]

/-- C1 witness at the spec scenario. -/
theorem admission_gate_blocking_and_logging_witness :
    dbPeak.settings = some settingsPeak
    ∧ latestEnergy dbPeak = some ⟨11 / 2, 0⟩
    ∧ ((admissionBlocked dbPeak.settings (latestEnergy dbPeak)
        = (settingsPeak.peakProtection
            && decide (settingsPeak.maxLoadKw * (9 / 10) ≤ (⟨11 / 2, 0⟩ : EnergyReading).currentKw)))
      ∧ (admissionBlocked dbPeak.settings (latestEnergy dbPeak) = true →
          processQueue 0 dbPeak = dbPeak)
      ∧ (admissionBlocked dbPeak.settings (latestEnergy dbPeak) = true →
          (manualAssign 0 dbPeak 1 1).1.powerEvents =
              { type := "OVERLOAD_PREVENTED", currentKw := (⟨11 / 2, 0⟩ : EnergyReading).currentKw,
                limitKw := settingsPeak.maxLoadKw, action := "Job assignment blocked" }
                :: dbPeak.powerEvents
            ∧ (manualAssign 0 dbPeak 1 1).2 =
                .blockedEnergy (⟨11 / 2, 0⟩ : EnergyReading).currentKw settingsPeak.maxLoadKw)) :=
  ⟨by with_unfolding_all decide, by with_unfolding_all decide,
    admission_gate_blocking_and_logging 0 1 1 dbPeak settingsPeak ⟨11 / 2, 0⟩
      (by with_unfolding_all decide) (by with_unfolding_all decide)⟩

/-! ### C2 — a blocked tick mutates nothing -/

/-- C2: whenever the admission gate blocks, the scheduler tick is a no-op on
the whole store — every QueueItem, Job, printer, telemetry and event table is
exactly as before. -/
theorem blocked_tick_is_noop (now : ℕ) (db : DB)
    (h : admissionBlocked db.settings (latestEnergy db) = true) :
    processQueue now db = db := by
  simp [processQueue, h]

/-- C2 witness at the spec scenario store. -/
theorem blocked_tick_is_noop_witness :
    admissionBlocked dbPeak.settings (latestEnergy dbPeak) = true
    ∧ processQueue 3 dbPeak = dbPeak :=
  ⟨by with_unfolding_all decide,
    blocked_tick_is_noop 3 dbPeak (by with_unfolding_all decide)⟩

/-! ### C3 — the two writes of a pair commit are not atomic -/

/-- C3 (counterexample): the queue-item write and the job write are two
separate `update` calls with no surrounding transaction, so the state after
only the first write is a reachable outcome of a pair commit — and there the
QueueEntry is `assigned` to printer 2 while its Job is still untouched
(`queued`, no printer, no `startedAt`). -/
theorem interrupted_pair_commit_reachable :
    PairCommitState 7 dbPairs itemA 2 (commitQueueWrite dbPairs itemA 2)
    ∧ (commitQueueWrite dbPairs itemA 2).queueItems = [⟨1, 1, some 2, 5, "assigned", 1⟩]
    ∧ (commitQueueWrite dbPairs itemA 2).jobs = [⟨1, "queued", none, none⟩] :=
  ⟨.afterQueueWrite, by with_unfolding_all decide, by with_unfolding_all decide⟩

/-- C3 (amended): a pair commit is two separate sequential row updates, not
one atomic unit.  When both complete, both take effect (the composite
`assignPair`); the queue write alone never touches Jobs and the job write
alone never touches QueueItems; and the intermediate state after only the
queue write is reachable if the commit is interrupted between the writes. -/
theorem pair_commit_two_separate_writes (now : ℕ) (db : DB) (item : QueueItem) (prId : ℕ) :
    assignPair now db item prId = commitJobWrite now (commitQueueWrite db item prId) item prId
    ∧ (commitQueueWrite db item prId).jobs = db.jobs
    ∧ (commitJobWrite now db item prId).queueItems = db.queueItems
    ∧ PairCommitState now db item prId (commitQueueWrite db item prId) :=
  ⟨rfl, rfl, rfl, .afterQueueWrite⟩

/-! ### C10 — no energy reading: the gate never blocks -/

/-- C10: with an empty energy-reading history the gate allows regardless of
`peakProtection`: the scheduler tick proceeds straight to the matching fold,
and the assign route can never answer with the energy block (and logs no
PowerEvent). -/
theorem empty_history_skips_gate (now qid pid : ℕ) (db : DB)
    (h : db.energyReadings = []) :
    admissionBlocked db.settings (latestEnergy db) = false
    ∧ processQueue now db =
        (committedPairs db).foldl (fun d pr => assignPair now d pr.1 pr.2.id) db
    ∧ (∀ c m, (manualAssign now db qid pid).2 ≠ .blockedEnergy c m)
    ∧ (manualAssign now db qid pid).1.powerEvents = db.powerEvents := by
  have hnone : latestEnergy db = none := by
    unfold latestEnergy
    rw [h]
    rfl
  have hgate : gateCheck db.settings (latestEnergy db) = none := by
    rw [hnone]
    unfold gateCheck
    rcases db.settings with _ | s <;> rfl
  have hblocked : admissionBlocked db.settings (latestEnergy db) = false := by
    simp [admissionBlocked, hgate]
  refine ⟨hblocked, processQueue_allowed now db hblocked, ?_, ?_⟩
  · intro c m
    unfold manualAssign
    rw [hgate]
    repeat' split
    all_goals simp_all
  · exact manualAssign_powerEvents_of_not_blocked now qid pid db hgate

/-- C10 witness: peak protection enabled, empty reading table, and the tick
still commits (printer 1 takes entry 1). -/
theorem empty_history_skips_gate_witness :
    dbNoReading.energyReadings = []
    ∧ (admissionBlocked dbNoReading.settings (latestEnergy dbNoReading) = false
      ∧ processQueue 4 dbNoReading =
          (committedPairs dbNoReading).foldl
            (fun d pr => assignPair 4 d pr.1 pr.2.id) dbNoReading
      ∧ (∀ c m, (manualAssign 4 dbNoReading 1 1).2 ≠ .blockedEnergy c m)
      ∧ (manualAssign 4 dbNoReading 1 1).1.powerEvents = dbNoReading.powerEvents) :=
  ⟨rfl, empty_history_skips_gate 4 1 1 dbNoReading rfl⟩

/-! ### C4 — which printers the tick treats as assignable -/

/-- C4 (counterexample): printer 1's current status is `offline`, yet the
tick puts it in the eligible set and commits entry 1 onto it. -/
theorem offline_printer_gets_assigned :
    (latestTelemetry dbOffline 1).map (fun t => t.status) = some "offline"
    ∧ idlePrinters dbOffline = [printer1]
    ∧ (processQueue 0 dbOffline).queueItems = [⟨1, 1, some 1, 5, "assigned", 1⟩] := by
  with_unfolding_all decide

/-- C4 (amended): the set of printers the scheduler pairs work onto consists
of the active printers whose latest telemetry is absent, or reports `idle`,
or reports `offline` — not only the genuinely idle ones. -/
theorem idlePrinters_membership (db : DB) (p : Printer) :
    p ∈ idlePrinters db ↔
      p ∈ db.printers ∧ p.isActive = true ∧
        (latestTelemetry db p.id = none ∨
          ∃ t, latestTelemetry db p.id = some t
            ∧ (t.status = "idle" ∨ t.status = "offline")) := by
  have he : eligibleForAssign db p = true ↔
      (latestTelemetry db p.id = none ∨
        ∃ t, latestTelemetry db p.id = some t
          ∧ (t.status = "idle" ∨ t.status = "offline")) := by
    unfold eligibleForAssign
    rcases hlt : latestTelemetry db p.id with _ | t <;> simp [hlt]
  unfold idlePrinters
  simp only [List.mem_filter, he, Bool.and_eq_true, and_assoc]

/-! ### C5 — thermal anomaly events are level-triggered, not edge-triggered -/

/-- One poll appends one THERMAL_RUNAWAY event exactly when the reported
extruder temperature exceeds the printer's limit. -/
theorem thermalEventCount_pollTick (now : ℕ) (db : DB) (p : Printer) (r : RawPoll) :
    thermalEventCount p.id (pollTick now db p r) =
      thermalEventCount p.id db
        + (if p.maxTempExtruder < r.extruderTemp then 1 else 0) := by
  unfold pollTick thermalEventCount
  by_cases h : p.maxTempExtruder < r.extruderTemp
  · simp [h, List.filter_cons]
  · simp [h]

/-- C5 (counterexample): five consecutive polls at 300 °C against a 260 °C
limit append five CRITICAL events — one per poll, not one per breach. -/
theorem five_over_limit_polls_five_events :
    printer1.maxTempExtruder = 260
    ∧ rawOver.extruderTemp = 300
    ∧ thermalEventCount 1 (pollRun printer1 0 dbEmpty (List.replicate 5 rawOver)) = 5 := by
  with_unfolding_all decide

/-- C5 (amended): the thermal check is level-triggered: over any run of
consecutive polls, the number of THERMAL_RUNAWAY events appended equals the
number of polls whose extruder temperature exceeds the limit — with no
re-arming condition. -/
theorem thermal_events_level_triggered (p : Printer) (rs : List RawPoll) (now : ℕ) (db : DB) :
    thermalEventCount p.id (pollRun p now db rs) =
      thermalEventCount p.id db
        + (rs.filter (fun r => decide (p.maxTempExtruder < r.extruderTemp))).length := by
  induction rs generalizing now db with
  | nil => simp [pollRun]
  | cons r rest ih =>
      rw [pollRun, ih, thermalEventCount_pollTick]
      by_cases h : p.maxTempExtruder < r.extruderTemp <;>
        simp [h, List.filter_cons] <;> omega

/-! ### C6 — manual assign performs no already-assigned check -/

/-- The already-assigned entry of `dbAssigned`. -/
def itemTaken : QueueItem := ⟨1, 1, some 7, 5, "assigned", 0⟩

/-- C6 (counterexample): entry 1 is already `assigned` to printer 7; the
assign route neither fails nor leaves it alone — it answers `ok` and rebinds
the entry to printer 2. -/
theorem assigned_entry_reassigned :
    dbAssigned.queueItems = [itemTaken]
    ∧ itemTaken.status = "assigned"
    ∧ itemTaken.printerId = some 7
    ∧ (manualAssign 5 dbAssigned 1 2).2 = .ok
    ∧ (manualAssign 5 dbAssigned 1 2).1.queueItems =
        [⟨1, 1, some 2, 5, "assigned", 0⟩] := by
  with_unfolding_all decide

/-- C6 (amended): the assign route checks the energy gate, printer existence
and the busy test, but never the entry's own status: under those checks it
answers `ok` even for an entry already `assigned`, overwriting its device
reference (a second assignment, possibly to a second device). -/
theorem manual_assign_overwrites_assigned_entry (now qid pid : ℕ) (db : DB)
    (item : QueueItem) (pr : Printer)
    (hgate : gateCheck db.settings (latestEnergy db) = none)
    (hpr : db.printers.find? (fun p => p.id == pid) = some pr)
    (hbusy : telemetryIsPrinting db pid = false)
    (hitem : db.queueItems.find? (fun q => q.id == qid) = some item)
    (halready : item.status = "assigned")
    (hjob : (db.jobs.find? (fun j => j.id == item.jobId)).isSome) :
    (manualAssign now db qid pid).2 = .ok
    ∧ (manualAssign now db qid pid).1.queueItems =
        db.queueItems.map (fun q =>
          if q.id == item.id then { q with printerId := some pid, status := "assigned" }
          else q) := by
  obtain ⟨j, hj⟩ := Option.isSome_iff_exists.mp hjob
  unfold manualAssign
  simp [hgate, hpr, hbusy, hitem, hj, assignPair, commitJobWrite, commitQueueWrite]

/-- C6 witness at `dbAssigned`. -/
theorem manual_assign_overwrites_assigned_entry_witness :
    (gateCheck dbAssigned.settings (latestEnergy dbAssigned) = none
      ∧ dbAssigned.printers.find? (fun p => p.id == 2) = some printer2
      ∧ telemetryIsPrinting dbAssigned 2 = false
      ∧ dbAssigned.queueItems.find? (fun q => q.id == 1) = some itemTaken
      ∧ itemTaken.status = "assigned"
      ∧ (dbAssigned.jobs.find? (fun j => j.id == itemTaken.jobId)).isSome)
    ∧ ((manualAssign 5 dbAssigned 1 2).2 = .ok
      ∧ (manualAssign 5 dbAssigned 1 2).1.queueItems =
          dbAssigned.queueItems.map (fun q =>
            if q.id == itemTaken.id then { q with printerId := some 2, status := "assigned" }
            else q)) :=
  ⟨⟨by with_unfolding_all decide, by with_unfolding_all decide,
      by with_unfolding_all decide, by with_unfolding_all decide,
      by with_unfolding_all decide, by with_unfolding_all decide⟩,
    manual_assign_overwrites_assigned_entry 5 1 2 dbAssigned itemTaken printer2
      (by with_unfolding_all decide) (by with_unfolding_all decide)
      (by with_unfolding_all decide) (by with_unfolding_all decide)
      (by with_unfolding_all decide) (by with_unfolding_all decide)⟩

/-! ### C8 — the busy check rejects only `printing` telemetry -/

/-- C8 (counterexample): printer 1's latest telemetry is `paused`, yet the
assign route answers `ok` and commits entry 1 to it — no device-busy
failure, and a mutation. -/
theorem paused_printer_passes_busy_check :
    (latestTelemetry dbPaused 1).map (fun t => t.status) = some "paused"
    ∧ (manualAssign 0 dbPaused 1 1).2 = .ok
    ∧ (manualAssign 0 dbPaused 1 1).1.queueItems =
        [⟨1, 1, some 1, 5, "assigned", 1⟩] := by
  with_unfolding_all decide

/-- C8 (amended): the assign route fails with device-busy exactly when the
gate allows, the printer exists, and the printer's latest telemetry reports
`printing`; any other current status (`paused`, `error`, `maintenance`,
`offline`, or no telemetry at all) passes the busy check.  A busy failure
itself mutates nothing. -/
theorem busy_only_on_printing_telemetry (now qid pid : ℕ) (db : DB) :
    ((manualAssign now db qid pid).2 = .printerBusy ↔
      gateCheck db.settings (latestEnergy db) = none
        ∧ (db.printers.find? (fun p => p.id == pid)).isSome
        ∧ telemetryIsPrinting db pid = true)
    ∧ ((manualAssign now db qid pid).2 = .printerBusy →
        (manualAssign now db qid pid).1 = db)
    ∧ (telemetryIsPrinting db pid = true ↔
        ∃ t, latestTelemetry db pid = some t ∧ t.status = "printing") := by
  refine ⟨?_, ?_, ?_⟩
  · unfold manualAssign
    repeat' split
    all_goals simp_all
  · unfold manualAssign
    repeat' split
    all_goals simp_all
  · unfold telemetryIsPrinting
    rcases hlt : latestTelemetry db pid with _ | t <;> simp [hlt]

/-! ### C7 — one tick commits min(idle, candidates) pairs, in sorted order -/

instance : IsTotal QueueItem queueLe :=
  ⟨fun a b => by unfold queueLe; omega⟩

instance : IsTrans QueueItem queueLe :=
  ⟨fun a b c hab hbc => by unfold queueLe at hab hbc ⊢; omega⟩

/-- Inserting the pair `p` first commutes with the residual substitution when
`p`'s item id does not recur later in the pair list. -/
theorem applyAssign_step (p : QueueItem × Printer) (ps : List (QueueItem × Printer))
    (h : p.1.id ∉ ps.map (fun pr => pr.1.id)) (q : QueueItem) :
    applyAssign ps
        (if q.id == p.1.id then
          { q with printerId := some p.2.id, status := "assigned" } else q)
      = applyAssign (p :: ps) q := by
  by_cases hq : q.id = p.1.id
  · have hfind : ps.find? (fun pr => pr.1.id == q.id) = none := by
      apply List.find?_eq_none.mpr
      intro x hx
      simp only [beq_iff_eq]
      intro hxq
      exact h (List.mem_map.mpr ⟨x, hx, by rw [hxq, hq]⟩)
    rw [if_pos (by simp [hq] : (q.id == p.1.id) = true)]
    unfold applyAssign
    dsimp only
    rw [hfind, List.find?_cons_of_pos _ (by simp [hq])]
  · rw [if_neg ?hc]
    case hc =>
      simp only [beq_iff_eq]
      intro hcon
      exact hq (by simp_all)
    unfold applyAssign
    rw [List.find?_cons_of_neg _ ?hn]
    case hn =>
      simp only [beq_iff_eq]
      exact fun hh => hq hh.symm

/-- The matching loop is the pointwise substitution `applyAssign` on the
QueueItem table, provided the committed item ids are distinct. -/
theorem foldl_assignPair_queueItems (now : ℕ) (ps : List (QueueItem × Printer)) :
    ∀ db : DB, (ps.map (fun pr => pr.1.id)).Nodup →
      (ps.foldl (fun d pr => assignPair now d pr.1 pr.2.id) db).queueItems =
        db.queueItems.map (applyAssign ps) := by
  induction ps with
  | nil =>
      intro db _
      have hid : db.queueItems.map (applyAssign []) = db.queueItems.map id :=
        List.map_congr_left (fun q _ => rfl)
      rw [List.foldl_nil, hid, List.map_id]
  | cons p ps ih =>
      intro db h
      rw [List.map_cons, List.nodup_cons] at h
      rw [List.foldl_cons, ih _ h.2]
      have hstep : (assignPair now db p.1 p.2.id).queueItems =
          db.queueItems.map (fun q =>
            if q.id == p.1.id then
              { q with printerId := some p.2.id, status := "assigned" } else q) := rfl
      rw [hstep, List.map_map]
      exact List.map_congr_left (fun q _ => applyAssign_step p ps h.1 q)

/-- C7: when the gate allows, one tick rewrites the QueueItem table by
exactly the committed pairs; there are `min(idleCount, candidateCount)` of
them, their items are the first `min` entries of the sorted candidate list,
and that list is a permutation of the queued device-less entries sorted by
priority then insertion timestamp. -/
theorem tick_assigns_sorted_take_min (now : ℕ) (db : DB)
    (hA : admissionBlocked db.settings (latestEnergy db) = false)
    (hN : ((queuedUnassigned db).map (fun q => q.id)).Nodup) :
    (processQueue now db).queueItems = db.queueItems.map (applyAssign (committedPairs db))
    ∧ (committedPairs db).length
        = min (idlePrinters db).length (queuedUnassigned db).length
    ∧ (committedPairs db).map Prod.fst
        = (sortedCandidates db).take
            (min (idlePrinters db).length (queuedUnassigned db).length)
    ∧ (sortedCandidates db).Perm (queuedUnassigned db)
    ∧ List.Sorted queueLe (sortedCandidates db) := by
  have hperm : (sortedCandidates db).Perm (queuedUnassigned db) :=
    List.perm_insertionSort queueLe (queuedUnassigned db)
  have hLs : (sortedCandidates db).length = (queuedUnassigned db).length :=
    hperm.length_eq
  have hlenTaken : (takenCandidates db).length
      = min (idlePrinters db).length (queuedUnassigned db).length := by
    simp [takenCandidates, hLs]
  have hfst : (committedPairs db).map Prod.fst = takenCandidates db :=
    List.map_fst_zip _ _ (by rw [hlenTaken]; exact min_le_left _ _)
  have hlen : (committedPairs db).length
      = min (idlePrinters db).length (queuedUnassigned db).length := by
    have hc := congrArg List.length hfst
    rw [List.length_map] at hc
    rw [hc, hlenTaken]
  have hidsSorted : ((sortedCandidates db).map (fun q => q.id)).Nodup :=
    ((hperm.map (fun q => q.id)).nodup_iff).mpr hN
  have hidsTaken : ((takenCandidates db).map (fun q => q.id)).Nodup :=
    List.Nodup.sublist ((List.take_sublist _ _).map _) hidsSorted
  have hidsPairs : ((committedPairs db).map (fun pr => pr.1.id)).Nodup := by
    have hm : (committedPairs db).map (fun pr => pr.1.id)
        = ((committedPairs db).map Prod.fst).map (fun q => q.id) := by
      rw [List.map_map]; rfl
    rw [hm, hfst]
    exact hidsTaken
  refine ⟨?_, hlen, ?_, hperm, List.sorted_insertionSort queueLe _⟩
  · rw [processQueue_allowed now db hA]
    exact foldl_assignPair_queueItems now _ db hidsPairs
  · rw [hfst]
    unfold takenCandidates
    refine (List.take_eq_take).mpr ?_
    rw [hLs]
    exact (Nat.min_eq_left (min_le_right _ _)).symm

/-- C7 witness: one eligible printer, two queued entries with priorities 5
then 1: the tick commits exactly one pair, the priority-1 entry first. -/
theorem tick_assigns_sorted_take_min_witness :
    (admissionBlocked dbTwoItems.settings (latestEnergy dbTwoItems) = false
      ∧ ((queuedUnassigned dbTwoItems).map (fun q => q.id)).Nodup)
    ∧ ((processQueue 3 dbTwoItems).queueItems
        = dbTwoItems.queueItems.map (applyAssign (committedPairs dbTwoItems))
      ∧ (committedPairs dbTwoItems).length
          = min (idlePrinters dbTwoItems).length (queuedUnassigned dbTwoItems).length
      ∧ (committedPairs dbTwoItems).map Prod.fst
          = (sortedCandidates dbTwoItems).take
              (min (idlePrinters dbTwoItems).length (queuedUnassigned dbTwoItems).length)
      ∧ (sortedCandidates dbTwoItems).Perm (queuedUnassigned dbTwoItems)
      ∧ List.Sorted queueLe (sortedCandidates dbTwoItems)) :=
  ⟨⟨by with_unfolding_all decide, by with_unfolding_all decide⟩,
    tick_assigns_sorted_take_min 3 dbTwoItems
      (by with_unfolding_all decide) (by with_unfolding_all decide)⟩

/-! ### C9 — the power-draw estimate is monotone, with a standby floor -/

/-- Rounding to three decimals is monotone. -/
theorem round3_mono {x y : ℚ} (h : x ≤ y) : round3 x ≤ round3 y := by
  unfold round3
  have h2 : Int.floor (x * 1000 + 1 / 2) ≤ Int.floor (y * 1000 + 1 / 2) :=
    Int.floor_le_floor (by linarith)
  have h3 : ((Int.floor (x * 1000 + 1 / 2) : ℤ) : ℚ)
      ≤ ((Int.floor (y * 1000 + 1 / 2) : ℤ) : ℚ) := by exact_mod_cast h2
  linarith

/-- `round3` fixes the smallest non-standby estimate 0.07. -/
theorem round3_seven_hundredths : round3 (7 / 100) = 7 / 100 := by
  with_unfolding_all decide

/-- C9: for a non-negative nominal rating the draw estimate is monotone
non-decreasing in the extruder and bed temperatures taken componentwise, and
both temperatures near ambient (extruder < 50 °C, bed < 30 °C) give exactly
the 0.05 kW standby floor. -/
theorem calculateEnergyDraw_monotone_standby (rating e1 b1 e2 b2 : ℚ)
    (hr : 0 ≤ rating) (he : e1 ≤ e2) (hb : b1 ≤ b2) :
    calculateEnergyDraw e1 b1 rating ≤ calculateEnergyDraw e2 b2 rating
    ∧ (e1 < 50 → b1 < 30 → calculateEnergyDraw e1 b1 rating = 1 / 20) := by
  have hrate : (0 : ℚ) ≤ rating * (3 / 5) :=
    mul_nonneg hr (by norm_num)
  constructor
  · unfold calculateEnergyDraw
    by_cases h1 : e1 < 50 ∧ b1 < 30
    · by_cases h2 : e2 < 50 ∧ b2 < 30
      · simp [h1, h2]
      · rw [if_pos h1, if_neg h2]
        have hlow : (7 / 100 : ℚ)
            ≤ rating * (3 / 5) + (if 150 < e2 then 1 / 4 else 1 / 20)
                + (if 50 < b2 then 3 / 20 else 1 / 50) := by
          split_ifs <;> linarith
        calc (1 / 20 : ℚ) ≤ 7 / 100 := by norm_num
          _ = round3 (7 / 100) := round3_seven_hundredths.symm
          _ ≤ _ := round3_mono hlow
    · have h2 : ¬(e2 < 50 ∧ b2 < 30) := fun hc =>
        h1 ⟨lt_of_le_of_lt he hc.1, lt_of_le_of_lt hb hc.2⟩
      rw [if_neg h1, if_neg h2]
      apply round3_mono
      have hex : (if (150 : ℚ) < e1 then (1 / 4 : ℚ) else 1 / 20)
          ≤ (if (150 : ℚ) < e2 then (1 / 4 : ℚ) else 1 / 20) := by
        split_ifs <;> linarith
      have hbed : (if (50 : ℚ) < b1 then (3 / 20 : ℚ) else 1 / 50)
          ≤ (if (50 : ℚ) < b2 then (3 / 20 : ℚ) else 1 / 50) := by
        split_ifs <;> linarith
      linarith
  · intro he1 hb1
    unfold calculateEnergyDraw
    rw [if_pos ⟨he1, hb1⟩]

/-- C9 witness: rating 1, ambient pair (40, 20) against hot pair (200, 60). -/
theorem calculateEnergyDraw_monotone_standby_witness :
    ((0 : ℚ) ≤ 1 ∧ (40 : ℚ) ≤ 200 ∧ (20 : ℚ) ≤ 60)
    ∧ (calculateEnergyDraw 40 20 1 ≤ calculateEnergyDraw 200 60 1
      ∧ ((40 : ℚ) < 50 → (20 : ℚ) < 30 → calculateEnergyDraw 40 20 1 = 1 / 20)) :=
  ⟨⟨by norm_num, by norm_num, by norm_num⟩,
    calculateEnergyDraw_monotone_standby 1 40 20 200 60
      (by norm_num) (by norm_num) (by norm_num)⟩

end BlackCore
